import Mathlib

/-!
Verification of the 2AI deliberation-and-settlement pipeline.

This file gives a shallow embedding of the economic settlement logic
(`twai/services/economy/lightning_bridge.py`), the session-end route
(`twai/api/routes/chat.py`, `end_session`) and the multi-agent
deliberation pipeline (`twai/services/deliberation.py`), and proves the
specified properties about them.

Conventions of the embedding:
- Python integers are `Int`; Python floor division `//` is `Int.fdiv`.
- The float quality multipliers (0.0, 1.0, 2.0, 3.5, 5.0) are embedded
  as exact rationals; Python `int(x)` on a float is `pyTrunc` (truncation
  toward zero), exact in the idealised arithmetic.
- Python strings are Lean `String`s; the Python string operations used
  by the source (`startswith`, `strip`, `lower`, `capitalize`) are
  embedded code-point-wise over `String.data`, matching Python semantics.
- Network effects are modelled by passing in the observable behaviour of
  each external endpoint (an HTTP status and body, or a raised error).
-/

namespace TwoAI

/-! ## Economy: lightning_bridge.py -/

/-- Base rate: 1 sat = 100 micro-PoC (`SATS_TO_MICRO_POC`). -/
def SATS_TO_MICRO_POC : Int := 100

/-- 100 Sparks = 1 CGT (`SPARKS_PER_CGT`). -/
def SPARKS_PER_CGT : Int := 100

/-- Compute action costs in sats (`COMPUTE_COSTS`). -/
def COMPUTE_COSTS : List (String × Int) :=
  [("thought", 1), ("deliberation", 1), ("synthesis", 2), ("reflection", 1),
   ("memory_store", 1), ("nft_evolve", 2), ("nostr_publish", 1)]

/-- Session pool distribution percentages (`POOL_DISTRIBUTION`). -/
def POOL_DISTRIBUTION : List (String × Int) :=
  [("participant", 40), ("agents", 40), ("infrastructure", 20)]

/-- Percentage for a pool share; the three keys used by the source are all
present in the table, so the default is never taken. -/
def pool_pct (key : String) : Int := (POOL_DISTRIBUTION.lookup key).getD 0

/-- Quality tier multipliers (`QUALITY_MULTIPLIERS`), as exact rationals. -/
def QUALITY_MULTIPLIERS : List (String × ℚ) :=
  [("noise", 0), ("genuine", 1), ("resonance", 2), ("clarity", 7/2), ("breakthrough", 5)]

/-- Python `int(x)`: truncation toward zero, computed on the reduced
numerator and denominator of the rational. -/
def pyTrunc (q : ℚ) : Int := q.num.tdiv (q.den : Int)

/-- Function `sats_to_poc`: convert sats to Proof of Compute micro-units. -/
def sats_to_poc (sats : Int) : Int := sats * SATS_TO_MICRO_POC

/-- Function `poc_to_sats`: convert PoC micro-units back to sats. -/
def poc_to_sats (poc_micro : Int) : Int := poc_micro.fdiv SATS_TO_MICRO_POC

/-- Function `sats_to_sparks_estimate`: estimate Sparks from sats. -/
def sats_to_sparks_estimate (sats : Int) : Int := (sats_to_poc sats).fdiv 100

/-- Function `sats_to_cgt_estimate`: estimate CGT from sats (Python float division,
embedded as exact rational division). -/
def sats_to_cgt_estimate (sats : Int) : ℚ :=
  (sats_to_sparks_estimate sats : ℚ) / (SPARKS_PER_CGT : ℚ)

/-- Function `compute_action_cost`: sats cost of a compute action type, default 1. -/
def compute_action_cost (action_type : String) : Int :=
  (COMPUTE_COSTS.lookup action_type).getD 1

/-- The dictionary returned by `calculate_session_distribution`. -/
structure Distribution where
  total_raw_sats : Int
  quality_tier : String
  quality_multiplier : ℚ
  effective_total_sats : Int
  participant_sats : Int
  per_agent_sats : Int
  num_agents : Int
  total_agent_sats : Int
  infrastructure_sats : Int
  estimated_cgt : ℚ
deriving DecidableEq

/-- Python `QUALITY_MULTIPLIERS.get(quality_tier, 1.0)`. -/
def tierMultiplier (quality_tier : String) : ℚ :=
  (QUALITY_MULTIPLIERS.lookup quality_tier).getD 1

/-- The `effective_total = int(total_sats * multiplier)` computation of
`calculate_session_distribution`. -/
def effectiveTotal (total_sats : Int) (quality_tier : String) : Int :=
  pyTrunc ((total_sats : ℚ) * tierMultiplier quality_tier)

/-- Embedding of `calculate_session_distribution` from lightning_bridge.py. -/
def calculate_session_distribution (total_sats : Int) (quality_tier : String := "genuine")
    (num_agents : Int := 5) : Distribution :=
  let multiplier : ℚ := tierMultiplier quality_tier
  let effective_total : Int := effectiveTotal total_sats quality_tier
  let participant_sats := (effective_total * pool_pct "participant").fdiv 100
  let total_agent_sats := (effective_total * pool_pct "agents").fdiv 100
  let infrastructure_sats := (effective_total * pool_pct "infrastructure").fdiv 100
  let per_agent_sats := total_agent_sats.fdiv (max num_agents 1)
  -- Handle rounding remainder — give to infrastructure
  let remainder := effective_total - participant_sats - (per_agent_sats * num_agents)
    - infrastructure_sats
  let infrastructure_sats := infrastructure_sats + remainder
  { total_raw_sats := total_sats
    quality_tier := quality_tier
    quality_multiplier := multiplier
    effective_total_sats := effective_total
    participant_sats := participant_sats
    per_agent_sats := per_agent_sats
    num_agents := num_agents
    total_agent_sats := per_agent_sats * num_agents
    infrastructure_sats := infrastructure_sats
    estimated_cgt := sats_to_cgt_estimate effective_total }

example :
    (calculate_session_distribution 100 "resonance" 5).effective_total_sats = 200 := by
  with_unfolding_all rfl

example :
    (calculate_session_distribution 100 "resonance" 5).participant_sats = 80 ∧
    (calculate_session_distribution 100 "resonance" 5).per_agent_sats = 16 ∧
    (calculate_session_distribution 100 "resonance" 5).infrastructure_sats = 40 := by
  refine ⟨?_, ?_, ?_⟩ <;> with_unfolding_all rfl

example :
    (calculate_session_distribution 7 "genuine" 3).participant_sats = 2 ∧
    (calculate_session_distribution 7 "genuine" 3).per_agent_sats = 0 ∧
    (calculate_session_distribution 7 "genuine" 3).infrastructure_sats = 5 := by
  refine ⟨?_, ?_, ?_⟩ <;> with_unfolding_all rfl

/-! ## Python string operations used by deliberation.py

Python strings are sequences of code points, so the operations are embedded
code-point-wise over `String.data`. -/

/-- Python `s.lower()` (ASCII-adequate for the strings the source compares). -/
def pyLower (s : String) : String := String.mk (s.data.map Char.toLower)

/-- Python `s.strip()`: drop leading and trailing whitespace. -/
def pyStrip (s : String) : String :=
  String.mk (((s.data.dropWhile Char.isWhitespace).reverse.dropWhile Char.isWhitespace).reverse)

/-- Python `s.startswith(p)`. -/
def pyStartsWith (s p : String) : Bool := p.data.isPrefixOf s.data

/-- Python `s.capitalize()`: first code point uppercased, the rest lowercased. -/
def pyCapitalize (s : String) : String :=
  match s.data with
  | [] => ""
  | c :: rest => String.mk (c.toUpper :: rest.map Char.toLower)

/-- Helper for substring containment: does `sub` occur contiguously in `hay`? -/
def listContains : List Char → List Char → Bool
  | [], sub => sub.isPrefixOf []
  | c :: t, sub => sub.isPrefixOf (c :: t) || listContains t sub

/-- Python substring membership `sub in s`, code-point-wise. -/
def pyContains (s sub : String) : Bool := listContains s.data sub.data

/-! ## Deliberation: deliberation.py -/

/-- The configured Pantheon personas, in `AGENT_PROMPTS` insertion order. -/
def AGENT_NAMES : List String := ["apollo", "athena", "hermes", "mnemosyne", "aletheia"]

/-- One agent contribution (`AgentResponse`); `duration_ms` is wall-clock
time and is omitted from the embedding. -/
structure AgentResponse where
  agent : String
  response : String
  sats_earned : Int := 0
deriving DecidableEq

/-- Observable behaviour of one HTTP POST to one backend host: either a
response with a status code and extracted message content, or a raised
exception (timeout, connection failure, ...) that the source catches. -/
inductive HostResult where
  | ok (status : Nat) (content : String)
  | exnRaised (msg : String)
deriving DecidableEq

/-- Embedding of `DeliberationService._call_agent`: try each configured host in order;
the first HTTP 200 yields the extracted content; a non-200 status or an
exception moves on to the next host; when every host has failed the agent
gets the failure sentinel response. No exception escapes: every branch
returns an `AgentResponse`. -/
def call_agent (agent_name : String) : List HostResult → AgentResponse
  | [] => { agent := agent_name, response := "[" ++ agent_name ++ " was unable to respond]" }
  | r :: rest =>
    match r with
    | HostResult.ok status content =>
      if status = 200 then { agent := agent_name, response := content }
      else call_agent agent_name rest
    | HostResult.exnRaised _ => call_agent agent_name rest

/-- The silence check of `deliberate`: `resp.response.strip().lower() == "[silent]"`. -/
def isSilentSentinel (s : String) : Bool := pyLower (pyStrip s) == "[silent]"

/-- The silence rewrite of `deliberate`: a sentinel response is replaced by
the bracketed notice before any later use. -/
def rewriteSilence (r : AgentResponse) : AgentResponse :=
  if isSilentSentinel r.response then
    { r with response := "[" ++ r.agent ++ " chose silence]" }
  else r

/-- The test `not ar.response.startswith("[")` used by the reward loop, the
synthesis input builder and the `agents_participated` list. -/
def spokeCheck (r : AgentResponse) : Bool := !(pyStartsWith r.response "[")

/-- The `silent` classification of one gathered raw response: its raw text
is the silence sentinel. -/
def silentFlag (r : AgentResponse) : Bool := isSilentSentinel r.response

/-- The `spoke` classification: after the silence rewrite, the response
passes the bracket test that gates rewards, synthesis input and
participation. -/
def spokeFlag (r : AgentResponse) : Bool := spokeCheck (rewriteSilence r)

/-- The `failed` classification: after the silence rewrite the response
starts with the bracket character, and not by way of the silence rewrite. -/
def failedFlag (r : AgentResponse) : Bool :=
  pyStartsWith (rewriteSilence r).response "[" && !silentFlag r

/-- One labeled perspective line of `_synthesize`. -/
def perspectiveLine (r : AgentResponse) : String :=
  "[" ++ pyCapitalize r.agent ++ "]: " ++ r.response

/-- The synthesis input lines of `_synthesize`: one labeled line per agent
response that does not start with the bracket character. -/
def perspectives (rs : List AgentResponse) : List String :=
  (rs.filter spokeCheck).map perspectiveLine

/-- Observable behaviour of the optional `TwoAIService.send_message` call in
`_synthesize`: absent (no service with that attribute), raised (caught and
logged), or returned text. -/
inductive SvcResult where
  | absent
  | raised (msg : String)
  | returned (text : String)
deriving DecidableEq

/-- The host-fallback loop of `_synthesize`: first HTTP 200 wins, anything
else moves on; when every host has failed the fallback text is returned. -/
def tryHosts (fallback : String) : List HostResult → String
  | [] => fallback
  | r :: rest =>
    match r with
    | HostResult.ok status content =>
      if status = 200 then content else tryHosts fallback rest
    | HostResult.exnRaised _ => tryHosts fallback rest

/-- Whether one host attempt counts as a success (`status_code == 200`). -/
def hostSucceeded : HostResult → Bool
  | HostResult.ok status _ => status == 200
  | HostResult.exnRaised _ => false

/-- Embedding of `DeliberationService._synthesize`: try the TwoAIService, then each
Ollama host, and as a last resort concatenate the perspective lines. The
prompt text passed to the opaque backends does not influence control flow
and is not modelled. -/
def synthesize (agent_responses : List AgentResponse) (svc : SvcResult)
    (hosts : List HostResult) : String :=
  match svc with
  | SvcResult.returned text => text
  | _ =>
    tryHosts
      ("Multiple perspectives considered:\n\n"
        ++ String.intercalate "\n\n" (perspectives agent_responses))
      hosts

/-- Observable behaviour of the external collaborators during one
deliberation round. `agentHosts n` lists the outcome of each host attempt
for agent `n`, in configured host order; `rewardOk a` tells whether the
Lightning credit for actor `a` succeeds (a failed credit is caught and
logged); `synthSvc`/`synthHosts` describe the synthesis backends. -/
structure DeliberationEnv where
  agentHosts : String → List HostResult
  rewardOk : String → Bool
  synthSvc : SvcResult
  synthHosts : List HostResult

/-- The gathered agent responses of `deliberate` step 2. `asyncio.gather`
with `return_exceptions=True` preserves task order, and `_call_agent`
catches every per-host exception, so each gathered item is an
`AgentResponse`, one per configured agent, in configured order. -/
def gatherResponses (env : DeliberationEnv) : List AgentResponse :=
  AGENT_NAMES.map fun n => call_agent n (env.agentHosts n)

/-- The `valid_responses` list of `deliberate`: every gathered response,
with sentinel responses rewritten to the silence notice. -/
def validResponses (env : DeliberationEnv) : List AgentResponse :=
  (gatherResponses env).map rewriteSilence

/-- The `silent_agents` list of `deliberate`: agents whose raw response was
the silence sentinel. -/
def silentAgents (env : DeliberationEnv) : List String :=
  ((gatherResponses env).filter fun r => isSilentSentinel r.response).map (·.agent)

/-- The reward loop body of `deliberate` step 3: a response passing
`spokeCheck` gets the deliberation cost attempted as a Lightning credit;
`sats_earned` is set only when the credit succeeds. -/
def rewardStep (env : DeliberationEnv) (ar : AgentResponse) : AgentResponse :=
  if spokeCheck ar && env.rewardOk ar.agent then
    { ar with sats_earned := compute_action_cost "deliberation" }
  else ar

/-- The `valid_responses` list after the reward loop mutated `sats_earned`
in place. -/
def rewardedResponses (env : DeliberationEnv) : List AgentResponse :=
  (validResponses env).map (rewardStep env)

/-- The agents for which the reward loop attempts a deliberation credit and
counts a compute action: exactly those whose (post-rewrite) response passes
`spokeCheck`. -/
def creditAttempted (env : DeliberationEnv) : List String :=
  ((validResponses env).filter spokeCheck).map (·.agent)

/-- The result of a deliberation round (`DeliberationResult`); the content
hash and wall-clock duration are omitted from the embedding. -/
structure DeliberationResult where
  user_message : String
  agent_responses : List AgentResponse
  synthesis : String
  total_compute_actions : Int
  total_sats_mined : Int
  agents_participated : List String
  quality_tier : String := "genuine"
deriving DecidableEq

/-- Embedding of `DeliberationService.deliberate`: gather one response per configured
agent, rewrite silence, run the reward loop, synthesize, reward the
synthesis (credited to the treasury when the collaborator accepts it, with
the compute action counted unconditionally), and assemble the result. -/
def deliberate (env : DeliberationEnv) (user_message : String) : DeliberationResult :=
  let valid := validResponses env
  let rewarded := rewardedResponses env
  { user_message := user_message
    agent_responses := rewarded
    synthesis := synthesize valid env.synthSvc env.synthHosts
    total_compute_actions := ((valid.filter spokeCheck).length : Int) + 1
    total_sats_mined := (rewarded.map (·.sats_earned)).sum
      + (if env.rewardOk "treasury" then compute_action_cost "synthesis" else 0)
    agents_participated := (valid.filter spokeCheck).map (·.agent) }

/-- The round-trip scenario of the spec: the backend of apollo returns the
silence sentinel, athena speaks, and for the remaining agents the only
host raises; every
Lightning credit would succeed; the synthesis service raises and the only
synthesis host is down. -/
def envScenario : DeliberationEnv :=
  { agentHosts := fun n =>
      if n = "apollo" then [HostResult.ok 200 "[silent]"]
      else if n = "athena" then [HostResult.ok 200 "hello world"]
      else [HostResult.exnRaised "timeout"]
    rewardOk := fun _ => true
    synthSvc := SvcResult.raised "overloaded"
    synthHosts := [HostResult.exnRaised "down"] }

/-- A round in which every agent host fails and every synthesis backend
fails: nobody spoke. -/
def envNoSpeech : DeliberationEnv :=
  { agentHosts := fun _ => [HostResult.exnRaised "timeout"]
    rewardOk := fun _ => false
    synthSvc := SvcResult.raised "unavailable"
    synthHosts := [HostResult.exnRaised "down", HostResult.ok 500 "internal error"] }

/-- A round in which the genuine reply of apollo happens to begin with the
bracket character, while every other agent speaks normally. -/
def envBracketReply : DeliberationEnv :=
  { agentHosts := fun n =>
      if n = "apollo" then [HostResult.ok 200 "[I agree with the premise]"]
      else [HostResult.ok 200 "insight"]
    rewardOk := fun _ => true
    synthSvc := SvcResult.absent
    synthHosts := [] }

/-- A round in which apollo self-identifies at the start of its reply. -/
def envSelfLabel : DeliberationEnv :=
  { agentHosts := fun n =>
      if n = "apollo" then [HostResult.ok 200 "Apollo: I see the truth."]
      else [HostResult.exnRaised "timeout"]
    rewardOk := fun _ => true
    synthSvc := SvcResult.absent
    synthHosts := [] }

/-! ## Session settlement route: api/routes/chat.py, end_session -/

/-- The response model of the `/session/end` route (`EndSessionResponse`). -/
structure EndSessionResponse where
  participant_id : String
  total_raw_sats : Int
  quality_tier : String
  quality_multiplier : ℚ
  effective_total_sats : Int
  participant_sats : Int
  per_agent_sats : Int
  num_agents : Int
  total_agent_sats : Int
  infrastructure_sats : Int
  agents_participated : List String
  transfers_completed : Int
  transfers_failed : Int
  estimated_cgt : ℚ
deriving DecidableEq

/-- Python truthiness of an optional string: present and non-empty. -/
def optTruthy : Option String → Bool
  | some s => s ≠ ""
  | none => false

/-- Embedding of `end_session` from chat.py, with the values read from the outside world
passed in: the accumulated pool total, the sorted participating-agent set,
the optional quality override from the request, the stored
last quality (`none` also covers a failed read, which the source catches),
and the per-agent Lightning transfer outcome. A zero pool total
short-circuits to the all-zero response before any of the rest is read. -/
def end_session (participant_id : String) (total_sats : Int) (agents_list : List String)
    (quality_override : Option String) (last_quality : Option String)
    (transferOk : String → Bool) : EndSessionResponse :=
  if total_sats = 0 then
    { participant_id := participant_id
      total_raw_sats := 0, quality_tier := "genuine", quality_multiplier := 1
      effective_total_sats := 0, participant_sats := 0, per_agent_sats := 0
      num_agents := 0, total_agent_sats := 0, infrastructure_sats := 0
      agents_participated := [], transfers_completed := 0, transfers_failed := 0
      estimated_cgt := 0 }
  else
    let num_agents : Int := agents_list.length
    -- quality_tier = request.quality_override or "genuine", then replaced by a
    -- truthy stored last_quality when no override was given
    let quality_tier :=
      if optTruthy quality_override then quality_override.getD "genuine" else "genuine"
    let quality_tier :=
      if !optTruthy quality_override && optTruthy last_quality then
        last_quality.getD quality_tier
      else quality_tier
    let distribution :=
      calculate_session_distribution total_sats quality_tier
        (if num_agents = 0 then 5 else num_agents)
    let transfers_ok : Int :=
      if 0 < distribution.per_agent_sats then
        ((agents_list.filter fun a => transferOk a).length : Int)
      else 0
    let transfers_fail : Int :=
      if 0 < distribution.per_agent_sats then
        ((agents_list.filter fun a => !transferOk a).length : Int)
      else 0
    { participant_id := participant_id
      total_raw_sats := distribution.total_raw_sats
      quality_tier := distribution.quality_tier
      quality_multiplier := distribution.quality_multiplier
      effective_total_sats := distribution.effective_total_sats
      participant_sats := distribution.participant_sats
      per_agent_sats := distribution.per_agent_sats
      num_agents := distribution.num_agents
      total_agent_sats := distribution.total_agent_sats
      infrastructure_sats := distribution.infrastructure_sats
      agents_participated := agents_list
      transfers_completed := transfers_ok
      transfers_failed := transfers_fail
      estimated_cgt := distribution.estimated_cgt }

/-! ## Helper lemmas for the settlement calculator -/

theorem tierMultiplier_nonneg (t : String) : 0 ≤ tierMultiplier t := by
  simp only [tierMultiplier, QUALITY_MULTIPLIERS, List.lookup]
  repeat' split
  all_goals norm_num

theorem pyTrunc_eq_floor {q : ℚ} (h : 0 ≤ q) : pyTrunc q = ⌊q⌋ := by
  rw [pyTrunc, Rat.floor_def]
  exact Int.tdiv_eq_ediv (Rat.num_nonneg.mpr h) (by positivity)

theorem effectiveTotal_eq_floor (total : Int) (t : String) (h : 0 ≤ total) :
    effectiveTotal total t = ⌊(total : ℚ) * tierMultiplier t⌋ :=
  pyTrunc_eq_floor (mul_nonneg (by exact_mod_cast h) (tierMultiplier_nonneg t))

theorem effectiveTotal_nonneg (total : Int) (t : String) (h : 0 ≤ total) :
    0 ≤ effectiveTotal total t := by
  rw [effectiveTotal_eq_floor total t h]
  exact Int.floor_nonneg.mpr (mul_nonneg (by exact_mod_cast h) (tierMultiplier_nonneg t))

theorem effectiveTotal_mono (t : String) {a b : Int} (ha : 0 ≤ a) (hab : a ≤ b) :
    effectiveTotal a t ≤ effectiveTotal b t := by
  rw [effectiveTotal_eq_floor a t ha, effectiveTotal_eq_floor b t (le_trans ha hab)]
  exact Int.floor_mono
    (mul_le_mul_of_nonneg_right (by exact_mod_cast hab) (tierMultiplier_nonneg t))

theorem pool_pct_participant : pool_pct "participant" = 40 := by with_unfolding_all rfl

theorem pool_pct_agents : pool_pct "agents" = 40 := by with_unfolding_all rfl

theorem pool_pct_infrastructure : pool_pct "infrastructure" = 20 := by with_unfolding_all rfl

/-! ## Claim theorems: settlement -/

/-- C1: for every `total_sats ≥ 0`, every tier and every `num_agents ≥ 1`,
the split of `calculate_session_distribution` satisfies
`participant_sats + num_agents * per_agent_sats + infrastructure_sats
= effective_total_sats` exactly, where the effective total is the floor of
`total_sats` times the tier multiplier: the rounding remainder is absorbed
by the infrastructure share. -/
theorem claim_settlement_conservation (total_sats : Int) (quality_tier : String)
    (num_agents : Int) (htotal : 0 ≤ total_sats) (hagents : 1 ≤ num_agents) :
    (calculate_session_distribution total_sats quality_tier num_agents).participant_sats
      + num_agents * (calculate_session_distribution total_sats quality_tier num_agents).per_agent_sats
      + (calculate_session_distribution total_sats quality_tier num_agents).infrastructure_sats
      = (calculate_session_distribution total_sats quality_tier num_agents).effective_total_sats
    ∧ (calculate_session_distribution total_sats quality_tier num_agents).effective_total_sats
      = ⌊(total_sats : ℚ) * tierMultiplier quality_tier⌋ := by
  constructor
  · simp only [calculate_session_distribution]
    ring
  · simpa only [calculate_session_distribution] using
      effectiveTotal_eq_floor total_sats quality_tier htotal

/-- Witness for C1 at the settlement scenario of the spec. -/
theorem claim_settlement_conservation_witness :
    (0 : Int) ≤ 100 ∧ (1 : Int) ≤ 5 ∧
    ((calculate_session_distribution 100 "resonance" 5).participant_sats
      + 5 * (calculate_session_distribution 100 "resonance" 5).per_agent_sats
      + (calculate_session_distribution 100 "resonance" 5).infrastructure_sats
      = (calculate_session_distribution 100 "resonance" 5).effective_total_sats
    ∧ (calculate_session_distribution 100 "resonance" 5).effective_total_sats
      = ⌊((100 : Int) : ℚ) * tierMultiplier "resonance"⌋) :=
  ⟨by norm_num, by norm_num,
    claim_settlement_conservation 100 "resonance" 5 (by norm_num) (by norm_num)⟩

/-- C6: holding tier and agent count fixed, the effective total of the
settlement is monotone non-decreasing in the raw work-unit total. -/
theorem claim_settlement_monotonicity (quality_tier : String) (num_agents : Int)
    (a b : Int) (ha : 0 ≤ a) (hab : a ≤ b) :
    (calculate_session_distribution a quality_tier num_agents).effective_total_sats
      ≤ (calculate_session_distribution b quality_tier num_agents).effective_total_sats := by
  simpa only [calculate_session_distribution] using effectiveTotal_mono quality_tier ha hab

/-- Witness for C6. -/
theorem claim_settlement_monotonicity_witness :
    (0 : Int) ≤ 3 ∧ (3 : Int) ≤ 17 ∧
    (calculate_session_distribution 3 "clarity" 5).effective_total_sats
      ≤ (calculate_session_distribution 17 "clarity" 5).effective_total_sats :=
  ⟨by norm_num, by norm_num,
    claim_settlement_monotonicity "clarity" 5 3 17 (by norm_num) (by norm_num)⟩

/-- C9: for `total_sats ≥ 0` and `num_agents ≥ 1` every component of the
split is non-negative, and the infrastructure share (which absorbs the
rounding remainder) is at least the raw floored 20% share. -/
theorem claim_settlement_nonneg (total_sats : Int) (quality_tier : String)
    (num_agents : Int) (htotal : 0 ≤ total_sats) (hagents : 1 ≤ num_agents) :
    0 ≤ (calculate_session_distribution total_sats quality_tier num_agents).effective_total_sats
    ∧ 0 ≤ (calculate_session_distribution total_sats quality_tier num_agents).participant_sats
    ∧ 0 ≤ (calculate_session_distribution total_sats quality_tier num_agents).per_agent_sats
    ∧ 0 ≤ (calculate_session_distribution total_sats quality_tier num_agents).total_agent_sats
    ∧ ((calculate_session_distribution total_sats quality_tier num_agents).effective_total_sats
        * pool_pct "infrastructure").fdiv 100
      ≤ (calculate_session_distribution total_sats quality_tier num_agents).infrastructure_sats
    ∧ 0 ≤ (calculate_session_distribution total_sats quality_tier num_agents).infrastructure_sats := by
  have hn0 : (0 : Int) ≤ num_agents := le_trans zero_le_one hagents
  have hE : 0 ≤ effectiveTotal total_sats quality_tier :=
    effectiveTotal_nonneg total_sats quality_tier htotal
  simp only [calculate_session_distribution, pool_pct_participant, pool_pct_agents,
    pool_pct_infrastructure]
  set E := effectiveTotal total_sats quality_tier with hEdef
  have hp : 0 ≤ (E * 40).fdiv 100 := Int.fdiv_nonneg (by positivity) (by norm_num)
  have hper : 0 ≤ ((E * 40).fdiv 100).fdiv (max num_agents 1) :=
    Int.fdiv_nonneg hp (le_trans zero_le_one (le_max_right num_agents 1))
  have hi : 0 ≤ (E * 20).fdiv 100 := Int.fdiv_nonneg (by positivity) (by norm_num)
  have hmax : max num_agents 1 = num_agents := max_eq_left hagents
  have hpern : ((E * 40).fdiv 100).fdiv (max num_agents 1) * num_agents ≤ (E * 40).fdiv 100 := by
    rw [hmax, Int.fdiv_eq_ediv _ hn0]
    exact Int.ediv_mul_le _ (by omega)
  have hsum : (E * 40).fdiv 100 + (E * 40).fdiv 100 + (E * 20).fdiv 100 ≤ E := by
    rw [Int.fdiv_eq_ediv _ (by norm_num : (0:Int) ≤ 100),
      Int.fdiv_eq_ediv _ (by norm_num : (0:Int) ≤ 100)]
    omega
  refine ⟨hE, hp, hper, mul_nonneg hper hn0, by linarith, by linarith⟩

/-- Witness for C9. -/
theorem claim_settlement_nonneg_witness :
    (0 : Int) ≤ 7 ∧ (1 : Int) ≤ 3 ∧
    (0 ≤ (calculate_session_distribution 7 "genuine" 3).effective_total_sats
    ∧ 0 ≤ (calculate_session_distribution 7 "genuine" 3).participant_sats
    ∧ 0 ≤ (calculate_session_distribution 7 "genuine" 3).per_agent_sats
    ∧ 0 ≤ (calculate_session_distribution 7 "genuine" 3).total_agent_sats
    ∧ ((calculate_session_distribution 7 "genuine" 3).effective_total_sats
        * pool_pct "infrastructure").fdiv 100
      ≤ (calculate_session_distribution 7 "genuine" 3).infrastructure_sats
    ∧ 0 ≤ (calculate_session_distribution 7 "genuine" 3).infrastructure_sats) :=
  ⟨by norm_num, by norm_num,
    claim_settlement_nonneg 7 "genuine" 3 (by norm_num) (by norm_num)⟩

/-- C10: an unknown quality tier is priced with the default multiplier 1.0,
so the returned distribution equals the one for tier "genuine" in every
field except the echoed tier string. -/
theorem claim_unknown_tier_defaults (quality_tier : String) (total_sats num_agents : Int)
    (h : QUALITY_MULTIPLIERS.lookup quality_tier = none) :
    tierMultiplier quality_tier = 1 ∧
    calculate_session_distribution total_sats quality_tier num_agents
      = { calculate_session_distribution total_sats "genuine" num_agents with
          quality_tier := quality_tier } := by
  have hm : tierMultiplier quality_tier = 1 := by simp [tierMultiplier, h]
  have hg : tierMultiplier "genuine" = (1 : ℚ) := by with_unfolding_all rfl
  exact ⟨hm, by simp only [calculate_session_distribution, effectiveTotal, hm, hg]⟩

/-- Witness for C10 at the unknown tier string "transcendent". -/
theorem claim_unknown_tier_defaults_witness :
    QUALITY_MULTIPLIERS.lookup "transcendent" = none ∧
    (tierMultiplier "transcendent" = 1 ∧
      calculate_session_distribution 100 "transcendent" 5
        = { calculate_session_distribution 100 "genuine" 5 with
            quality_tier := "transcendent" }) :=
  ⟨by with_unfolding_all rfl,
    claim_unknown_tier_defaults "transcendent" 100 5 (by with_unfolding_all rfl)⟩

/-- C5: settling a session whose pool total is zero returns the all-zero
settlement response with the neutral tier "genuine" and multiplier 1.0,
without touching the distribution calculator or the transfer loop. -/
theorem claim_zero_pool_settlement (pid : String) (agents : List String)
    (qo lq : Option String) (tok : String → Bool) :
    end_session pid 0 agents qo lq tok
      = { participant_id := pid, total_raw_sats := 0, quality_tier := "genuine",
          quality_multiplier := 1, effective_total_sats := 0, participant_sats := 0,
          per_agent_sats := 0, num_agents := 0, total_agent_sats := 0,
          infrastructure_sats := 0, agents_participated := [], transfers_completed := 0,
          transfers_failed := 0, estimated_cgt := 0 } := by
  rfl

/-! ## Helper lemmas for the deliberation pipeline -/

theorem call_agent_agent (n : String) (hs : List HostResult) : (call_agent n hs).agent = n := by
  induction hs with
  | nil => rfl
  | cons r t ih =>
    cases r with
    | ok status content =>
      by_cases h : status = 200 <;> simp [call_agent, h, ih]
    | exnRaised m => simpa [call_agent] using ih

theorem rewriteSilence_agent (r : AgentResponse) : (rewriteSilence r).agent = r.agent := by
  unfold rewriteSilence
  split <;> rfl

theorem rewardStep_agent (env : DeliberationEnv) (r : AgentResponse) :
    (rewardStep env r).agent = r.agent := by
  unfold rewardStep
  split <;> rfl

theorem rewardStep_response (env : DeliberationEnv) (r : AgentResponse) :
    (rewardStep env r).response = r.response := by
  unfold rewardStep
  split <;> rfl

theorem pyStartsWith_bracket (s t : String) : pyStartsWith ("[" ++ s ++ t) "[" = true := by
  have h1 : "[".data = ['['] := rfl
  simp [pyStartsWith, h1, List.isPrefixOf, String.data_append]

theorem spokeFlag_of_silent {r : AgentResponse} (h : isSilentSentinel r.response = true) :
    spokeFlag r = false := by
  simp [spokeFlag, spokeCheck, rewriteSilence, h, pyStartsWith_bracket]

theorem outcome_trichotomy (r : AgentResponse) :
    (spokeFlag r).toNat + (silentFlag r).toNat + (failedFlag r).toNat = 1 := by
  by_cases hs : isSilentSentinel r.response = true
  · have hb : pyStartsWith (rewriteSilence r).response "[" = true := by
      simp [rewriteSilence, hs, pyStartsWith_bracket]
    simp [spokeFlag_of_silent hs, silentFlag, failedFlag, hs, hb]
  · have hs2 : isSilentSentinel r.response = false := by simpa using hs
    have hr : rewriteSilence r = r := by simp [rewriteSilence, hs2]
    by_cases hb : pyStartsWith r.response "[" = true <;>
      simp [spokeFlag, silentFlag, failedFlag, spokeCheck, hr, hs2, hb]

theorem tryHosts_all_fail (fb : String) (hosts : List HostResult)
    (h : ∀ r ∈ hosts, hostSucceeded r = false) : tryHosts fb hosts = fb := by
  induction hosts with
  | nil => rfl
  | cons r t ih =>
    have hr := h r (List.mem_cons_self r t)
    have ht : ∀ x ∈ t, hostSucceeded x = false := fun x hx => h x (List.mem_cons_of_mem r hx)
    cases r with
    | ok status content =>
      have hst : status ≠ 200 := by simpa [hostSucceeded] using hr
      simp [tryHosts, hst, ih ht]
    | exnRaised m => simpa [tryHosts] using ih ht

/-- The response gathered for one configured agent. -/
def gatheredFor (env : DeliberationEnv) (name : String) : AgentResponse :=
  call_agent name (env.agentHosts name)

theorem validResponses_eq (env : DeliberationEnv) :
    validResponses env = AGENT_NAMES.map fun n => rewriteSilence (gatheredFor env n) := by
  simp [validResponses, gatherResponses, gatheredFor, List.map_map, Function.comp]

theorem mem_spoke_iff (env : DeliberationEnv) (name : String) (hname : name ∈ AGENT_NAMES) :
    name ∈ ((validResponses env).filter spokeCheck).map (fun r => r.agent)
      ↔ spokeCheck (rewriteSilence (gatheredFor env name)) = true := by
  rw [validResponses_eq]
  constructor
  · rintro hmem
    rcases List.mem_map.mp hmem with ⟨r, hrf, hagent⟩
    rcases List.mem_filter.mp hrf with ⟨hrv, hsp⟩
    rcases List.mem_map.mp hrv with ⟨n2, _, rfl⟩
    have : n2 = name := by
      simpa [rewriteSilence_agent, gatheredFor, call_agent_agent] using hagent
    subst this
    exact hsp
  · intro hsp
    refine List.mem_map.mpr ⟨rewriteSilence (gatheredFor env name), ?_, ?_⟩
    · exact List.mem_filter.mpr ⟨List.mem_map.mpr ⟨name, hname, rfl⟩, hsp⟩
    · simp [rewriteSilence_agent, gatheredFor, call_agent_agent]

/-! ## Claim theorems: deliberation -/

/-- C3: for every behaviour of the external backends, the fan-out step
yields exactly one outcome per configured agent, in configured order (the
agent fields of the returned responses are exactly `AGENT_NAMES`), and each
gathered response is classified as exactly one of spoke, silent, failed; no
per-agent backend failure escapes, since `call_agent` totalises every host
outcome into a response. -/
theorem claim_broadcast_completeness (env : DeliberationEnv) (msg : String) :
    ((deliberate env msg).agent_responses.map (fun r => r.agent) = AGENT_NAMES) ∧
    ∀ r ∈ gatherResponses env,
      (spokeFlag r).toNat + (silentFlag r).toNat + (failedFlag r).toNat = 1 := by
  constructor
  · simp only [deliberate, rewardedResponses, validResponses, gatherResponses, List.map_map]
    exact List.map_id''
      (fun n => by
        simp [Function.comp, rewardStep_agent, rewriteSilence_agent, call_agent_agent])
      AGENT_NAMES
  · intro r _
    exact outcome_trichotomy r

/-- Witness for C3 at the round-trip scenario of the spec, instantiating
the per-response classification at the gathered sentinel response of
apollo. -/
theorem claim_broadcast_completeness_witness :
    ((deliberate envScenario "q").agent_responses.map (fun r => r.agent) = AGENT_NAMES) ∧
    ((spokeFlag { agent := "apollo", response := "[silent]" }).toNat
      + (silentFlag { agent := "apollo", response := "[silent]" }).toNat
      + (failedFlag { agent := "apollo", response := "[silent]" }).toNat = 1) :=
  ⟨(claim_broadcast_completeness envScenario "q").1,
   (claim_broadcast_completeness envScenario "q").2
     { agent := "apollo", response := "[silent]" }
     (by with_unfolding_all exact List.Mem.head _)⟩

/-- C8: an agent is treated as having spoken iff its post-rewrite response
text does not start with the bracket character. A genuine reply that
happens to begin with the bracket is therefore excluded from the synthesis
input, gets no work-unit credit attempt, and is omitted from
`agents_participated`, exactly like a failure. -/
theorem claim_bracket_reply_treated_as_failed (env : DeliberationEnv) (msg name : String)
    (hname : name ∈ AGENT_NAMES) :
    (name ∈ (deliberate env msg).agents_participated
      ↔ pyStartsWith (rewriteSilence (gatheredFor env name)).response "[" = false) ∧
    (name ∈ creditAttempted env
      ↔ pyStartsWith (rewriteSilence (gatheredFor env name)).response "[" = false) ∧
    (pyStartsWith (rewriteSilence (gatheredFor env name)).response "[" = true →
      rewriteSilence (gatheredFor env name) ∉ (validResponses env).filter spokeCheck) := by
  have hpart : (deliberate env msg).agents_participated
      = ((validResponses env).filter spokeCheck).map (fun r => r.agent) := by
    simp [deliberate]
  have hiff := mem_spoke_iff env name hname
  have hsc : ∀ r : AgentResponse,
      (spokeCheck r = true) ↔ (pyStartsWith r.response "[" = false) := by
    intro r
    simp [spokeCheck]
  refine ⟨?_, ?_, ?_⟩
  · rw [hpart]
    exact hiff.trans (hsc _)
  · exact hiff.trans (hsc _)
  · intro hb hmem
    have hsp := (List.mem_filter.mp hmem).2
    have hfalse := (hsc _).mp hsp
    simp [hfalse] at hb

/-- Witness for C8 at a round where apollo genuinely replies with text
beginning with the bracket character. -/
theorem claim_bracket_reply_treated_as_failed_witness :
    "apollo" ∈ AGENT_NAMES ∧
    ((("apollo" ∈ (deliberate envBracketReply "q").agents_participated
      ↔ pyStartsWith (rewriteSilence (gatheredFor envBracketReply "apollo")).response "["
          = false)) ∧
    ("apollo" ∈ creditAttempted envBracketReply
      ↔ pyStartsWith (rewriteSilence (gatheredFor envBracketReply "apollo")).response "["
          = false) ∧
    (pyStartsWith (rewriteSilence (gatheredFor envBracketReply "apollo")).response "[" = true →
      rewriteSilence (gatheredFor envBracketReply "apollo")
        ∉ (validResponses envBracketReply).filter spokeCheck)) :=
  ⟨by with_unfolding_all exact List.Mem.head _,
    claim_bracket_reply_treated_as_failed envBracketReply "q" "apollo"
      (by with_unfolding_all exact List.Mem.head _)⟩

/-- C2, evaluated at the failing input: apollo returns the exact sentinel
and is classified silent and excluded from the synthesis input, but —
because the silence rewrite happens before the bracket test of the reward
loop —
apollo gets no credit attempt and earns 0 sats; only athena is credited,
contradicting the claim (and the own comments of the source) that silent agents
are rewarded like speakers. -/
theorem claim_silent_agent_not_credited :
    silentAgents envScenario = ["apollo"] ∧
    perspectives (validResponses envScenario) = ["[Athena]: hello world"] ∧
    creditAttempted envScenario = ["athena"] ∧
    ((deliberate envScenario "q").agent_responses.map fun r => (r.agent, r.sats_earned))
      = [("apollo", 0), ("athena", 1), ("hermes", 0), ("mnemosyne", 0), ("aletheia", 0)] ∧
    (deliberate envScenario "q").total_sats_mined = 3 := by
  refine ⟨?_, ?_, ?_, ?_, ?_⟩ <;> with_unfolding_all rfl

/-- C4 counterexample: with zero spoke outcomes and every synthesis backend
failing, the returned text is the generic concatenation-fallback header
with an empty body; it is not a "no perspectives offered" sentinel — it
does not even contain that phrase. -/
theorem claim_no_perspectives_sentinel_counterexample :
    synthesize (validResponses envNoSpeech) envNoSpeech.synthSvc envNoSpeech.synthHosts
      = "Multiple perspectives considered:\n\n" ∧
    pyContains "Multiple perspectives considered:\n\n" "no perspectives offered" = false := by
  constructor <;> with_unfolding_all rfl

/-- C4 amended: when zero outcomes spoke and every synthesis backend fails,
`_synthesize` still returns, without raising, a fixed non-empty text — the
concatenation fallback applied to the empty perspective list — which the
caller can detect by comparison with that constant. -/
theorem claim_empty_synthesis_fallback (rs : List AgentResponse) (svc : SvcResult)
    (hosts : List HostResult)
    (hnospeak : rs.filter spokeCheck = [])
    (hsvc : ∀ t, svc ≠ SvcResult.returned t)
    (hhosts : ∀ r ∈ hosts, hostSucceeded r = false) :
    synthesize rs svc hosts = "Multiple perspectives considered:\n\n" ∧
    synthesize rs svc hosts ≠ "" := by
  have hpersp : perspectives rs = [] := by simp [perspectives, hnospeak]
  have heq : synthesize rs svc hosts = "Multiple perspectives considered:\n\n" := by
    cases svc with
    | returned t => exact absurd rfl (hsvc t)
    | absent =>
      simp only [synthesize]
      rw [tryHosts_all_fail _ _ hhosts, hpersp]
      rfl
    | raised m =>
      simp only [synthesize]
      rw [tryHosts_all_fail _ _ hhosts, hpersp]
      rfl
  refine ⟨heq, ?_⟩
  rw [heq]
  decide

/-- Witness for C4 at the all-failed round. -/
theorem claim_empty_synthesis_fallback_witness :
    (validResponses envNoSpeech).filter spokeCheck = [] ∧
    (synthesize (validResponses envNoSpeech) envNoSpeech.synthSvc envNoSpeech.synthHosts
        = "Multiple perspectives considered:\n\n" ∧
      synthesize (validResponses envNoSpeech) envNoSpeech.synthSvc envNoSpeech.synthHosts
        ≠ "") :=
  ⟨by with_unfolding_all rfl,
    claim_empty_synthesis_fallback (validResponses envNoSpeech) envNoSpeech.synthSvc
      envNoSpeech.synthHosts (by with_unfolding_all rfl)
      (fun t h => by simp [envNoSpeech] at h)
      (by decide)⟩

/-- C7 counterexample: apollo speaks with a self-identification label at
the start of its reply; the text reaches the returned outcome and the
synthesis input verbatim, still carrying the "Apollo:" start — nothing is
stripped anywhere in the pipeline. -/
theorem claim_strip_self_id_counterexample :
    ((deliberate envSelfLabel "q").agent_responses.map fun r => (r.agent, r.response))
      = [("apollo", "Apollo: I see the truth."),
         ("athena", "[athena was unable to respond]"),
         ("hermes", "[hermes was unable to respond]"),
         ("mnemosyne", "[mnemosyne was unable to respond]"),
         ("aletheia", "[aletheia was unable to respond]")] ∧
    (deliberate envSelfLabel "q").agents_participated = ["apollo"] ∧
    perspectives (validResponses envSelfLabel) = ["[Apollo]: Apollo: I see the truth."] ∧
    pyStartsWith "Apollo: I see the truth." "Apollo:" = true := by
  refine ⟨?_, ?_, ?_, ?_⟩ <;> with_unfolding_all rfl

/-- C7 amended: for a spoke outcome the response text is used verbatim —
the exact backend text appears unchanged in the returned outcome, and the
synthesis input labels that verbatim text with the bracketed agent name. -/
theorem claim_spoke_text_verbatim (n s : String) (rest : List HostResult)
    (hs : isSilentSentinel s = false) :
    (rewriteSilence (call_agent n (HostResult.ok 200 s :: rest))).response = s ∧
    perspectiveLine (rewriteSilence (call_agent n (HostResult.ok 200 s :: rest)))
      = "[" ++ pyCapitalize n ++ "]: " ++ s := by
  have h1 : call_agent n (HostResult.ok 200 s :: rest)
      = { agent := n, response := s } := by simp [call_agent]
  have h2 : rewriteSilence { agent := n, response := s }
      = { agent := n, response := s } := by simp [rewriteSilence, hs]
  rw [h1, h2]
  exact ⟨rfl, rfl⟩

/-- Witness for C7. -/
theorem claim_spoke_text_verbatim_witness :
    isSilentSentinel "Apollo: I see the truth." = false ∧
    ((rewriteSilence (call_agent "apollo"
        (HostResult.ok 200 "Apollo: I see the truth." :: []))).response
        = "Apollo: I see the truth." ∧
      perspectiveLine (rewriteSilence (call_agent "apollo"
        (HostResult.ok 200 "Apollo: I see the truth." :: [])))
        = "[" ++ pyCapitalize "apollo" ++ "]: " ++ "Apollo: I see the truth.") :=
  ⟨by with_unfolding_all rfl,
    claim_spoke_text_verbatim "apollo" "Apollo: I see the truth." []
      (by with_unfolding_all rfl)⟩

end TwoAI
